import Mathlib

/-!
Shallow embedding of the Oliver uploader's work-queue, result-ledger,
navigation and classification logic (from `src/unnamed/part_001`, the
queue-enabled variant, with the dual-strategy resolver also present in
`src/unnamed/part_000`), together with theorems checking the
natural-language specification against it.

Durable files (`queue.txt`, `added.txt`, `already-exists.txt`,
`not-found.txt`, `errors.txt`) are modelled as lists of lines; every
complete durable write is one state transition.
-/

namespace Oliver

/-- The five canonical statuses returned by `processISBN`. -/
inductive Status where
  | ADDED
  | ALREADY_EXISTS
  | NOT_FOUND
  | ERROR
  | UNKNOWN
deriving DecidableEq, Repr

/-- Durable on-disk state: the pending queue plus the four ledger files,
each as its list of lines. -/
structure LedgerState where
  queue : List String
  added : List String
  alreadyExists : List String
  notFound : List String
  errors : List String
deriving DecidableEq, Repr

/-- The all-empty durable state (fresh directory, no files yet). -/
def emptyState : LedgerState := ⟨[], [], [], [], []⟩

/-- `appendLine(filePath, line, errorMessage)`: the appended line is
`line # errorMessage` when a message is supplied, else `line` alone. -/
def appendLine (file : List String) (line : String)
    (errorMessage : Option String) : List String :=
  file ++ [match errorMessage with
           | some m => line ++ " # " ++ m
           | none => line]

/-- JS truthiness of `errorMessage || "Unknown error"` in `recordResult`:
`null` and the empty string both fall back to the default. -/
def orUnknown (errorMessage : Option String) : String :=
  match errorMessage with
  | some m => if m = "" then "Unknown error" else m
  | none => "Unknown error"

/-- `removeFirstLineFromQueue()`: if the queue is non-empty, shift off the
first item and rewrite the queue file. -/
def removeFirstLineFromQueue (s : LedgerState) : LedgerState :=
  if s.queue.length > 0 then { s with queue := s.queue.tail } else s

/-- The ledger-append half of `recordResult` (the `switch` statement):
one durable append to the file matching the status.  `ERROR` and
`UNKNOWN` both go to `errors.txt` with `errorMessage || "Unknown error"`. -/
def recordLedger (s : LedgerState) (isbn : String) (status : Status)
    (errorMessage : Option String) : LedgerState :=
  match status with
  | .ADDED => { s with added := appendLine s.added isbn none }
  | .ALREADY_EXISTS =>
      { s with alreadyExists := appendLine s.alreadyExists isbn none }
  | .NOT_FOUND => { s with notFound := appendLine s.notFound isbn none }
  | .ERROR =>
      { s with errors := appendLine s.errors isbn (some (orUnknown errorMessage)) }
  | .UNKNOWN =>
      { s with errors := appendLine s.errors isbn (some (orUnknown errorMessage)) }

/-- `recordResult(isbn, status, errorMessage)`: the ledger append happens
first, then `removeFirstLineFromQueue()` — two durable writes in that
order, exactly as in the source. -/
def recordResult (s : LedgerState) (isbn : String) (status : Status)
    (errorMessage : Option String) : LedgerState :=
  removeFirstLineFromQueue (recordLedger s isbn status errorMessage)

/-- The line `recordResult` appends for a given status. -/
def ledgerEntry (isbn : String) (status : Status)
    (errorMessage : Option String) : String :=
  match status with
  | .ADDED | .ALREADY_EXISTS | .NOT_FOUND => isbn
  | .ERROR | .UNKNOWN => isbn ++ " # " ++ orUnknown errorMessage

/-- Which ledger list the status is recorded in. -/
def ledgerOf (s : LedgerState) (status : Status) : List String :=
  match status with
  | .ADDED => s.added
  | .ALREADY_EXISTS => s.alreadyExists
  | .NOT_FOUND => s.notFound
  | .ERROR | .UNKNOWN => s.errors

/-- An identifier counts as present in the errors ledger when some line is
the identifier itself or the identifier followed by the ` # ` separator. -/
def inErrorSet (s : LedgerState) (isbn : String) : Bool :=
  s.errors.any
    (fun l => l = isbn || (isbn ++ " # ").toList.isPrefixOf l.toList)

/-- `getProcessedIsbns()`: the union of `added.txt`, `already-exists.txt`
and `not-found.txt` — `errors.txt` is deliberately excluded so errored
identifiers are retried. -/
def processedIsbns (s : LedgerState) (isbn : String) : Bool :=
  s.added.contains isbn || s.alreadyExists.contains isbn
    || s.notFound.contains isbn

/-- The queue surviving the purge of already-processed identifiers. -/
def cleanedQueueOf (s : LedgerState) : List String :=
  s.queue.filter (fun isbn => !(processedIsbns s isbn))

/-- New ISBNs kept when an existing (cleaned) queue is present: not yet
processed and not already in the cleaned queue. -/
def newIsbnsWithQueue (input : List String) (s : LedgerState) : List String :=
  input.filter
    (fun isbn => !(processedIsbns s isbn) && !((cleanedQueueOf s).contains isbn))

/-- New ISBNs kept when no (cleaned) queue remains: not yet processed. -/
def newIsbnsFresh (input : List String) (s : LedgerState) : List String :=
  input.filter (fun isbn => !(processedIsbns s isbn))

/-- `initializeQueue(inputIsbns)`: purge the persisted queue of processed
identifiers, then either append genuinely new input ISBNs to it or start a
fresh queue; returns the in-memory queue and the resulting durable state.
The final `else` branch returns without rewriting the queue file. -/
def initializeQueue (input : List String) (s : LedgerState) :
    List String × LedgerState :=
  if (cleanedQueueOf s).length > 0 then
    if (newIsbnsWithQueue input s).length > 0 then
      (cleanedQueueOf s ++ newIsbnsWithQueue input s,
       { s with queue := cleanedQueueOf s ++ newIsbnsWithQueue input s })
    else if (cleanedQueueOf s).length ≠ s.queue.length then
      (cleanedQueueOf s, { s with queue := cleanedQueueOf s })
    else
      (cleanedQueueOf s, s)
  else
    if (newIsbnsFresh input s).length > 0 then
      (newIsbnsFresh input s, { s with queue := newIsbnsFresh input s })
    else
      ([], s)

/-- Total number of durable records: queue lines plus all ledger lines. -/
def totalCount (s : LedgerState) : Nat :=
  s.queue.length + s.added.length + s.alreadyExists.length
    + s.notFound.length + s.errors.length

/-- `pat` occurs as a contiguous run inside `hay` (JS `String.includes`). -/
def containsSub (pat : List Char) : List Char → Bool
  | [] => pat.isEmpty
  | c :: t => pat.isPrefixOf (c :: t) || containsSub pat t

/-- `statusText.toLowerCase()` as a character list. -/
def lowerChars (s : String) : List Char :=
  s.toList.map Char.toLower

/-- `statusText.toLowerCase().includes(pat)` for a lowercase pattern. -/
def hasMsg (text pat : String) : Bool :=
  containsSub pat.toList (lowerChars text)

/-- State of the `#smartCatSaveResource` control after a search. -/
inductive SaveControl where
  | absent
  | present (disabled : Bool)
deriving DecidableEq, Repr

/-- Page observations `processISBN` classifies: the terminal status text
and the save control. -/
structure ClassifyInput where
  statusText : String
  saveControl : SaveControl
deriving DecidableEq, Repr

/-- Result of one `processISBN` call: the recorded status, whether the
save control was clicked, and the error message passed to `recordResult`. -/
structure ClassifyResult where
  status : Status
  clicked : Bool
  errMsg : Option String
deriving DecidableEq, Repr

/-- The classification tail of `processISBN` (after a successful search):
`"no matching resource"` → NOT_FOUND; `"found matching resource"` →
inspect the save control (disabled → ALREADY_EXISTS, enabled → click →
ADDED, absent → UNKNOWN "Save button not found"); anything else →
UNKNOWN "No status message".  Matching is on the lower-cased text. -/
def classify (inp : ClassifyInput) : ClassifyResult :=
  if hasMsg inp.statusText "no matching resource" then
    ⟨.NOT_FOUND, false, none⟩
  else if hasMsg inp.statusText "found matching resource" then
    match inp.saveControl with
    | .present disabled =>
        if disabled then ⟨.ALREADY_EXISTS, false, none⟩
        else ⟨.ADDED, true, none⟩
    | .absent => ⟨.UNKNOWN, false, some "Save button not found"⟩
  else ⟨.UNKNOWN, false, some "No status message"⟩

/-- The whole of `processISBN`'s status pipeline: navigation failure and
search failure short-circuit to ERROR before classification runs. -/
def processOutcome (navNeeded navSuccess searchOk : Bool)
    (inp : ClassifyInput) : ClassifyResult :=
  if navNeeded && !navSuccess then ⟨.ERROR, false, some "Navigation failed"⟩
  else if !searchOk then ⟨.ERROR, false, some "Search failed after re-login"⟩
  else classify inp

/-- Per-attempt page observations for `searchSmartCataloguing`. -/
structure SearchObs where
  fieldAvailable : Bool
  renavSuccess : Bool
  loginVisible : Bool
  stillOn : Bool
  permissionDenied : Bool
deriving DecidableEq, Repr

/-- The session-loss test after the search action: login affordance
visible, no longer on the Smart Cataloguing URL, or permission denied. -/
def sessionLost (o : SearchObs) : Bool :=
  o.loginVisible || !o.stillOn || o.permissionDenied

/-- `searchSmartCataloguing(isbn, attempt)`: bail out at `attempt > 3`;
re-navigate and recurse when the search field is missing; after the
search, re-navigate and recurse on session loss while `attempt < 3`;
otherwise report whether the page is still on the search surface. -/
def searchSC (env : Nat → SearchObs) (attempt : Nat) : Bool :=
  if _h : attempt > 3 then false
  else
    let o := env attempt
    if o.fieldAvailable then
      if sessionLost o && attempt < 3 then
        if o.renavSuccess then searchSC env (attempt + 1) else false
      else o.stillOn
    else
      if o.renavSuccess then searchSC env (attempt + 1) else false
  termination_by 4 - attempt
  decreasing_by all_goals omega

/-- `firstVisibleIdx` of the duplicated `#menuItem_smartCataloguing`
elements: index of the first one whose `isVisible()` is true. -/
def firstVisibleIdx : List Bool → Option Nat
  | [] => none
  | v :: rest =>
      if v then some 0 else (firstVisibleIdx rest).map (· + 1)

/-- The menu-item selection step of `attemptMenuSmartCatalog`: walk the
matched elements, pick the first visible one, and throw
`"No visible Smart Cataloguing menu item found"` when none is visible. -/
def selectMenuItem (itemsVisible : List Bool) : Except String Nat :=
  match firstVisibleIdx itemsVisible with
  | some i => Except.ok i
  | none => Except.error "No visible Smart Cataloguing menu item found"

/-- Per-attempt page observations for `attemptMenuSmartCatalog`. -/
structure MenuObs where
  logoutVisible : Bool
  loginSuccess : Bool
  menuFound : Bool
  menuFoundAfterRefresh : Bool
  clickThrows : Bool
  itemsVisible : List Bool
  loginVisibleAfter : Bool
  loginSuccessAfter : Bool
  permissionDenied : Bool
  searchReady : Bool
deriving DecidableEq, Repr

/-- `attemptMenuSmartCatalog(attempt)` (queue variant): ceiling of 3
attempts, after which it returns `false`; a failed welcome-page login,
missing cataloguing menu, post-click login page, permission denial or
missing search field all recurse with `attempt + 1`; an inner click
failure after 3 tries and an all-hidden menu-item list throw. -/
def attemptMenu (env : Nat → MenuObs) (attempt : Nat) : Except String Bool :=
  if _h : attempt > 3 then Except.ok false
  else
    let o := env attempt
    if !o.logoutVisible && !o.loginSuccess then attemptMenu env (attempt + 1)
    else if !o.menuFound && !o.menuFoundAfterRefresh then
      attemptMenu env (attempt + 1)
    else if o.clickThrows then Except.error "menu click failed"
    else
      match selectMenuItem o.itemsVisible with
      | Except.error e => Except.error e
      | Except.ok _ =>
          if o.loginVisibleAfter then
            if !o.loginSuccessAfter then attemptMenu env (attempt + 1)
            else attemptMenu env (attempt + 1)
          else if o.permissionDenied then attemptMenu env (attempt + 1)
          else if o.searchReady then Except.ok true
          else attemptMenu env (attempt + 1)
  termination_by 4 - attempt
  decreasing_by all_goals omega

/-- Per-attempt page observations for `attemptDirectSmartCatalog`. -/
structure DirectObs where
  loginVisible : Bool
  loginSuccess : Bool
  permissionDenied : Bool
  onSmartCatUrl : Bool
  searchReady : Bool
deriving DecidableEq, Repr

/-- The `for` loop of `attemptDirectSmartCatalog(maxAttempts = 5)` with
its `attemptedLogin` flag: `break` paths return `false` to the caller;
only a ready search surface returns `true`. -/
def directGo (env : Nat → DirectObs) (maxAttempts : Nat) (attempt : Nat)
    (attemptedLogin : Bool) : Bool :=
  if h : attempt > maxAttempts then false
  else
    let o := env attempt
    if o.loginVisible then
      if attemptedLogin then false
      else if !o.loginSuccess then directGo env maxAttempts (attempt + 1) attemptedLogin
      else directGo env maxAttempts (attempt + 1) true
    else if !o.permissionDenied then
      if !o.onSmartCatUrl then false
      else if o.searchReady then true
      else directGo env maxAttempts (attempt + 1) attemptedLogin
    else
      if attemptedLogin then false
      else if !o.loginSuccess then directGo env maxAttempts (attempt + 1) attemptedLogin
      else directGo env maxAttempts (attempt + 1) true
  termination_by maxAttempts + 1 - attempt
  decreasing_by all_goals omega

/-- `attemptDirectSmartCatalog(maxAttempts = 5)`. -/
def attemptDirect (env : Nat → DirectObs) (maxAttempts : Nat := 5) : Bool :=
  directGo env maxAttempts 1 false

/-- Outcome of the initial `navigateToSmartCataloguing()` call. -/
inductive NavResult where
  | ready
  | failed
  | thrown (msg : String)
deriving DecidableEq, Repr

/-- Inputs determining `runOliverAutomation`'s exit behaviour. -/
structure RunInput where
  hasUsername : Bool
  hasPassword : Bool
  isbns : List String
  state : LedgerState
  initialNav : NavResult
deriving Repr

/-- The process exit code of `runOliverAutomation`: `process.exit(1)` on
missing credentials or an empty identifier list; a plain `return` (exit 0)
when the initialized queue is empty or the initial navigation returns
`false`; `process.exit(1)` from the outer `catch` when it throws; and a
normal exit 0 otherwise — per-item errors are recorded by `processISBN`'s
own `catch` and never reach the outer handler. -/
def runExitCode (r : RunInput) : Nat :=
  if !r.hasUsername || !r.hasPassword then 1
  else if r.isbns.isEmpty then 1
  else
    let q := (initializeQueue r.isbns r.state).1
    if q.isEmpty then 0
    else
      match r.initialNav with
      | .thrown _ => 1
      | .failed => 0
      | .ready => 0

end Oliver

namespace Oliver

/-- C1: `recordResult` first appends the identifier's entry to the ledger
list matching the outcome (a durable write that leaves the queue and the
other ledgers untouched), and only then removes the head of the persisted
queue (a durable write that touches nothing but the queue) — so at the
intermediate durable state the identifier is already recorded while still
in the queue, and a crash between the two writes can never leave it both
unrecorded and missing from the queue.  When the identifier is at the
head, the second write removes exactly it. -/
theorem recordResult_record_then_dequeue
    (s : LedgerState) (isbn : String) (status : Status)
    (errorMessage : Option String) :
    (recordLedger s isbn status errorMessage).queue = s.queue ∧
    ledgerOf (recordLedger s isbn status errorMessage) status
      = ledgerOf s status ++ [ledgerEntry isbn status errorMessage] ∧
    recordResult s isbn status errorMessage
      = removeFirstLineFromQueue (recordLedger s isbn status errorMessage) ∧
    (removeFirstLineFromQueue (recordLedger s isbn status errorMessage)).added
      = (recordLedger s isbn status errorMessage).added ∧
    (removeFirstLineFromQueue (recordLedger s isbn status errorMessage)).alreadyExists
      = (recordLedger s isbn status errorMessage).alreadyExists ∧
    (removeFirstLineFromQueue (recordLedger s isbn status errorMessage)).notFound
      = (recordLedger s isbn status errorMessage).notFound ∧
    (removeFirstLineFromQueue (recordLedger s isbn status errorMessage)).errors
      = (recordLedger s isbn status errorMessage).errors ∧
    (s.queue.head? = some isbn →
      (recordResult s isbn status errorMessage).queue = s.queue.tail) := by
  refine ⟨?_, ?_, rfl, ?_, ?_, ?_, ?_, ?_⟩
  · cases status <;> rfl
  · cases status <;> simp [recordLedger, ledgerOf, ledgerEntry, appendLine]
  · cases status <;> simp [removeFirstLineFromQueue, recordLedger] <;> split <;> rfl
  · cases status <;> simp [removeFirstLineFromQueue, recordLedger] <;> split <;> rfl
  · cases status <;> simp [removeFirstLineFromQueue, recordLedger] <;> split <;> rfl
  · cases status <;> simp [removeFirstLineFromQueue, recordLedger] <;> split <;> rfl
  · intro h
    have hq : (recordLedger s isbn status errorMessage).queue = s.queue := by
      cases status <;> rfl
    have hne : s.queue ≠ [] := by
      intro hnil; rw [hnil] at h; simp at h
    have hpos : s.queue.length > 0 := List.length_pos.mpr hne
    simp only [recordResult, removeFirstLineFromQueue, hq, if_pos hpos]


lemma removeFirst_queue_length (s : LedgerState) :
    (removeFirstLineFromQueue s).queue.length = s.queue.length - 1 := by
  unfold removeFirstLineFromQueue
  split
  · simp [List.length_tail]
  · omega

lemma removeFirst_added (s : LedgerState) :
    (removeFirstLineFromQueue s).added = s.added := by
  unfold removeFirstLineFromQueue; split <;> rfl

lemma removeFirst_alreadyExists (s : LedgerState) :
    (removeFirstLineFromQueue s).alreadyExists = s.alreadyExists := by
  unfold removeFirstLineFromQueue; split <;> rfl

lemma removeFirst_notFound (s : LedgerState) :
    (removeFirstLineFromQueue s).notFound = s.notFound := by
  unfold removeFirstLineFromQueue; split <;> rfl

lemma removeFirst_errors (s : LedgerState) :
    (removeFirstLineFromQueue s).errors = s.errors := by
  unfold removeFirstLineFromQueue; split <;> rfl


lemma mem_initQueue_of_mem_input {input : List String} {s : LedgerState}
    {i : String} (hi : i ∈ input) (hp : processedIsbns s i = false) :
    i ∈ (initializeQueue input s).1 := by
  unfold initializeQueue
  by_cases hq : i ∈ cleanedQueueOf s
  · split
    · split
      · exact List.mem_append.mpr (Or.inl hq)
      · split <;> exact hq
    · next hlen =>
        exact absurd (List.length_pos.mpr (List.ne_nil_of_mem hq)) (by omega)
  · have hcont : (cleanedQueueOf s).contains i = false := by
      simpa using hq
    have hniW : i ∈ newIsbnsWithQueue input s :=
      List.mem_filter.mpr ⟨hi, by simp [hp, hq]⟩
    have hniF : i ∈ newIsbnsFresh input s :=
      List.mem_filter.mpr ⟨hi, by simp [hp]⟩
    split
    · split
      · exact List.mem_append.mpr (Or.inr hniW)
      · next hlen =>
          exact absurd (List.length_pos.mpr (List.ne_nil_of_mem hniW)) (by omega)
    · split
      · exact hniF
      · next hlen =>
          exact absurd (List.length_pos.mpr (List.ne_nil_of_mem hniF)) (by omega)

lemma mem_initQueue_of_mem_queue {input : List String} {s : LedgerState}
    {i : String} (hi : i ∈ s.queue) (hp : processedIsbns s i = false) :
    i ∈ (initializeQueue input s).1 := by
  have hq : i ∈ cleanedQueueOf s := List.mem_filter.mpr ⟨hi, by simp [hp]⟩
  unfold initializeQueue
  split
  · split
    · exact List.mem_append.mpr (Or.inl hq)
    · split <;> exact hq
  · next hlen =>
      exact absurd (List.length_pos.mpr (List.ne_nil_of_mem hq)) (by omega)

lemma initQueue_not_processed {input : List String} {s : LedgerState}
    {i : String} (hi : i ∈ (initializeQueue input s).1) :
    processedIsbns s i = false := by
  have hclean : ∀ j ∈ cleanedQueueOf s, processedIsbns s j = false := by
    intro j hj
    simpa using (List.mem_filter.mp hj).2
  have hniW : ∀ j ∈ newIsbnsWithQueue input s, processedIsbns s j = false := by
    intro j hj
    have h2 := (List.mem_filter.mp hj).2
    simp at h2
    exact h2.1
  have hniF : ∀ j ∈ newIsbnsFresh input s, processedIsbns s j = false := by
    intro j hj
    simpa using (List.mem_filter.mp hj).2
  unfold initializeQueue at hi
  split at hi
  · split at hi
    · rcases List.mem_append.mp hi with h | h
      · exact hclean _ h
      · exact hniW _ h
    · split at hi <;> exact hclean _ hi
  · split at hi
    · exact hniF _ hi
    · simp at hi


lemma count_initQueue {input : List String} {s : LedgerState} {isbn : String}
    (hp : processedIsbns s isbn = false)
    (hq : s.queue.contains isbn = false) :
    (initializeQueue input s).1.count isbn = input.count isbn := by
  have hnotmem : isbn ∉ s.queue := by simpa using hq
  have hqclean : isbn ∉ cleanedQueueOf s :=
    fun h => hnotmem (List.mem_of_mem_filter h)
  have hclean0 : (cleanedQueueOf s).count isbn = 0 :=
    List.count_eq_zero.mpr hqclean
  have hcW : (newIsbnsWithQueue input s).count isbn = input.count isbn :=
    List.count_filter (by simp [hp, hqclean])
  have hcF : (newIsbnsFresh input s).count isbn = input.count isbn :=
    List.count_filter (by simp [hp])
  unfold initializeQueue
  split
  · split
    · simp [List.count_append, hclean0, hcW]
    · next h2 =>
        have hnil : newIsbnsWithQueue input s = [] :=
          List.length_eq_zero.mp (by omega)
        have hin0 : input.count isbn = 0 := by
          rw [← hcW, hnil]; simp
        split <;> simp [hclean0, hin0]
  · split
    · simpa using hcF
    · next h3 =>
        have hnil : newIsbnsFresh input s = [] :=
          List.length_eq_zero.mp (by omega)
        have hin0 : input.count isbn = 0 := by
          rw [← hcF, hnil]; simp
        simp [hin0]

lemma initQueue_queue_eq {input : List String} {s : LedgerState}
    (h : (initializeQueue input s).1 ≠ []) :
    (initializeQueue input s).2.queue = (initializeQueue input s).1 := by
  unfold initializeQueue at h ⊢
  by_cases h1 : 0 < (cleanedQueueOf s).length
  · by_cases h2 : 0 < (newIsbnsWithQueue input s).length
    · simp [h1, h2]
    · by_cases h3 : (cleanedQueueOf s).length = s.queue.length
      · have heq : cleanedQueueOf s = s.queue :=
          List.Sublist.eq_of_length (List.filter_sublist _) h3
        have h1' : 0 < s.queue.length := by rw [← heq]; exact h1
        simp [h1, h2, h3, heq, h1']
      · simp [h1, h2, h3]
  · by_cases h4 : 0 < (newIsbnsFresh input s).length
    · simp [h1, h4]
    · simp [h1, h4] at h

lemma initQueue_ledgers_unchanged (input : List String) (s : LedgerState) :
    (initializeQueue input s).2.added = s.added ∧
    (initializeQueue input s).2.alreadyExists = s.alreadyExists ∧
    (initializeQueue input s).2.notFound = s.notFound ∧
    (initializeQueue input s).2.errors = s.errors := by
  unfold initializeQueue
  split
  · split
    · exact ⟨rfl, rfl, rfl, rfl⟩
    · split <;> exact ⟨rfl, rfl, rfl, rfl⟩
  · split <;> exact ⟨rfl, rfl, rfl, rfl⟩

/-- C1 witness: at the concrete state with queue `["x", "y"]`, recording
ADDED for `"x"` leaves the queue untouched by the ledger write and then
removes exactly the head. -/
theorem recordResult_record_then_dequeue_witness :
    (recordLedger ⟨["x", "y"], [], [], [], []⟩ "x" Status.ADDED none).queue
      = ["x", "y"] ∧
    (recordResult ⟨["x", "y"], [], [], [], []⟩ "x" Status.ADDED none).queue
      = ["y"] :=
  ⟨(recordResult_record_then_dequeue ⟨["x", "y"], [], [], [], []⟩ "x"
      Status.ADDED none).1,
   (recordResult_record_then_dequeue ⟨["x", "y"], [], [], [], []⟩ "x"
      Status.ADDED none).2.2.2.2.2.2.2 rfl⟩

/-- C9: an UNKNOWN outcome is persisted exactly like an ERROR outcome,
into the errors ledger, as `isbn # message` with
`errorMessage || "Unknown error"`; the other ledgers are untouched (the
entry is never dropped), there is no separate Unknown set, and the only
messages `classify` attaches to UNKNOWN are "Save button not found" and
"No status message". -/
theorem unknown_recorded_in_errors :
    ∀ (s : LedgerState) (isbn : String) (msg : Option String),
      recordResult s isbn Status.UNKNOWN msg
        = recordResult s isbn Status.ERROR msg ∧
      (recordResult s isbn Status.UNKNOWN msg).errors
        = s.errors ++ [isbn ++ " # " ++ orUnknown msg] ∧
      (recordResult s isbn Status.UNKNOWN msg).added = s.added ∧
      (recordResult s isbn Status.UNKNOWN msg).alreadyExists
        = s.alreadyExists ∧
      (recordResult s isbn Status.UNKNOWN msg).notFound = s.notFound ∧
      orUnknown none = "Unknown error" ∧
      (∀ inp : ClassifyInput, (classify inp).status = Status.UNKNOWN →
        (classify inp).errMsg = some "Save button not found" ∨
        (classify inp).errMsg = some "No status message") := by
  intro s isbn msg
  refine ⟨rfl, ?_, ?_, ?_, ?_, rfl, ?_⟩
  · simp [recordResult, removeFirst_errors, recordLedger, appendLine]
  · simp [recordResult, removeFirst_added, recordLedger]
  · simp [recordResult, removeFirst_alreadyExists, recordLedger]
  · simp [recordResult, removeFirst_notFound, recordLedger]
  · intro inp h
    by_cases hA : hasMsg inp.statusText "no matching resource"
    · simp [classify, hA] at h
    · by_cases hB : hasMsg inp.statusText "found matching resource"
      · cases hc : inp.saveControl with
        | absent => left; simp [classify, hA, hB, hc]
        | present d => cases d <;> simp [classify, hA, hB, hc] at h
      · right; simp [classify, hA, hB]

/-- C2 counterexample: the claimed accounting fails on the code.  With a
fresh state and input `["a", "a"]` the persisted queue has 2 lines while
only 1 distinct identifier was supplied; and after `"a"` errored in a
previous run and is retried and added, `"a"` sits in both the Error set
and the Added set, so identifiers are not confined to one set. -/
theorem ledger_totals_counterexample :
    totalCount (initializeQueue ["a", "a"] emptyState).2 = 2 ∧
    (["a", "a"] : List String).dedup.length = 1 ∧
    (recordResult (initializeQueue ["a"]
        ⟨[], [], [], [], ["a # Unknown error"]⟩).2 "a" Status.ADDED none).added
      = ["a"] ∧
    inErrorSet (recordResult (initializeQueue ["a"]
        ⟨[], [], [], [], ["a # Unknown error"]⟩).2 "a" Status.ADDED none) "a"
      = true := by
  refine ⟨by decide, by decide, by decide, by decide⟩

/-- C2 as amended: what the code guarantees is conservation per
checkpoint step, counting occurrences rather than distinct identifiers —
`recordResult` on a non-empty queue preserves
`len(queue) + |Added| + |AlreadyExists| + |NotFound| + |Errors|`, and
`initializeQueue` loses no supplied identifier: every input identifier is
in the resulting queue or already in a terminal (ADDED / ALREADY_EXISTS /
NOT_FOUND) set.  Duplicated inputs and retried Error entries can make the
same identifier occupy several lines and several sets. -/
theorem ledger_conservation_amended :
    (∀ (s : LedgerState) (isbn : String) (status : Status)
       (msg : Option String), s.queue ≠ [] →
       totalCount (recordResult s isbn status msg) = totalCount s) ∧
    (∀ (input : List String) (s : LedgerState) (i : String), i ∈ input →
       i ∈ (initializeQueue input s).1 ∨ processedIsbns s i = true) := by
  constructor
  · intro s isbn status msg hne
    have hpos : 0 < s.queue.length := List.length_pos.mpr hne
    cases status <;>
      simp [recordResult, totalCount, removeFirst_queue_length,
            removeFirst_added, removeFirst_alreadyExists,
            removeFirst_notFound, removeFirst_errors, recordLedger,
            appendLine] <;> omega
  · intro input s i hi
    by_cases hp : processedIsbns s i = true
    · exact Or.inr hp
    · exact Or.inl (mem_initQueue_of_mem_input hi (by simpa using hp))

/-- C2 amended, witness at concrete inputs. -/
theorem ledger_conservation_amended_witness :
    totalCount (recordResult ⟨["a"], [], [], [], []⟩ "a" Status.ADDED none)
      = totalCount ⟨["a"], [], [], [], []⟩ ∧
    ("a" ∈ (initializeQueue ["a"] emptyState).1 ∨
      processedIsbns emptyState "a" = true) :=
  ⟨ledger_conservation_amended.1 ⟨["a"], [], [], [], []⟩ "a" Status.ADDED
      none (by decide),
   ledger_conservation_amended.2 ["a"] emptyState "a" (by decide)⟩

/-- C3 counterexample: `"x"` has an Error-ledger entry, yet
`initializeQueue` enqueues it again — an Error outcome is not terminal
for the purge (`getProcessedIsbns` reads only the three success files). -/
theorem error_not_terminal_counterexample :
    inErrorSet ⟨[], [], [], [], ["x # Unknown error"]⟩ "x" = true ∧
    (initializeQueue ["x"] ⟨[], [], [], [], ["x # Unknown error"]⟩).1
      = ["x"] := by
  refine ⟨by decide, by decide⟩

/-- C3 as amended: `initializeQueue` merges the persisted queue with the
input, purges exactly the identifiers with an ADDED / ALREADY_EXISTS /
NOT_FOUND entry (Error entries are deliberately retried), keeps every
not-yet-terminal input and queue identifier, leaves all ledgers
untouched, and persists the resulting queue whenever it is non-empty
(when it is empty a stale queue file may be left unrewritten). -/
theorem initializeQueue_amended :
    ∀ (input : List String) (s : LedgerState),
      (∀ i ∈ (initializeQueue input s).1, processedIsbns s i = false) ∧
      (∀ i ∈ input, processedIsbns s i = false →
        i ∈ (initializeQueue input s).1) ∧
      (∀ i ∈ s.queue, processedIsbns s i = false →
        i ∈ (initializeQueue input s).1) ∧
      ((initializeQueue input s).1 ≠ [] →
        (initializeQueue input s).2.queue = (initializeQueue input s).1) ∧
      (initializeQueue input s).2.added = s.added ∧
      (initializeQueue input s).2.alreadyExists = s.alreadyExists ∧
      (initializeQueue input s).2.notFound = s.notFound ∧
      (initializeQueue input s).2.errors = s.errors := by
  intro input s
  exact ⟨fun i hi => initQueue_not_processed hi,
         fun i hi hp => mem_initQueue_of_mem_input hi hp,
         fun i hi hp => mem_initQueue_of_mem_queue hi hp,
         initQueue_queue_eq,
         (initQueue_ledgers_unchanged input s).1,
         (initQueue_ledgers_unchanged input s).2.1,
         (initQueue_ledgers_unchanged input s).2.2.1,
         (initQueue_ledgers_unchanged input s).2.2.2⟩

/-- C3 amended, witness at a concrete state: a processed queue entry is
purged, the new identifier is kept and persisted. -/
theorem initializeQueue_amended_witness :
    ("b" ∈ (initializeQueue ["b"] ⟨["q"], ["q"], [], [], []⟩).1) ∧
    (initializeQueue ["b"] ⟨["q"], ["q"], [], [], []⟩).2.queue
      = (initializeQueue ["b"] ⟨["q"], ["q"], [], [], []⟩).1 :=
  ⟨((initializeQueue_amended ["b"] ⟨["q"], ["q"], [], [], []⟩).2.1) "b"
      (by decide) (by decide),
   ((initializeQueue_amended ["b"] ⟨["q"], ["q"], [], [], []⟩).2.2.2.1)
      (by decide)⟩

lemma firstVisibleIdx_visible :
    ∀ (vs : List Bool) (i : Nat), firstVisibleIdx vs = some i →
      vs.getD i false = true := by
  intro vs
  induction vs with
  | nil => intro i h; simp [firstVisibleIdx] at h
  | cons v rest ih =>
      intro i h
      by_cases hv : v = true
      · simp [firstVisibleIdx, hv] at h
        subst h
        simpa using hv
      · have hv' : v = false := by simpa using hv
        simp [firstVisibleIdx, hv'] at h
        obtain ⟨j, hj, hji⟩ := h
        subst hji
        simpa using ih j hj

lemma firstVisibleIdx_none :
    ∀ vs : List Bool, (∀ v ∈ vs, v = false) → firstVisibleIdx vs = none := by
  intro vs
  induction vs with
  | nil => intro _; rfl
  | cons v rest ih =>
      intro h
      have hv : v = false := h v (List.mem_cons_self v rest)
      have hrest := ih (fun x hx => h x (List.mem_cons_of_mem v hx))
      simp [firstVisibleIdx, hv, hrest]

/-- C4 counterexample: with credentials present and one identifier, when
the initial navigation resolver returns failure (the search surface could
never be reached before the first item) the orchestrator logs and
returns, so the process exits 0 — not non-zero as claimed. -/
theorem exit_zero_on_unreachable_surface_counterexample :
    runExitCode ⟨true, true, ["x"], emptyState, NavResult.failed⟩ = 0 := rfl

/-- C4 as amended: the exit code is 0 or 1, and it is 1 exactly when
credentials are missing, no identifiers were supplied, or the initial
navigation threw an exception with work pending (caught by the outer
handler).  A navigation resolver that merely returns failure, and
per-item Error outcomes, exit 0. -/
theorem runExitCode_amended :
    ∀ r : RunInput,
      (runExitCode r = 0 ∨ runExitCode r = 1) ∧
      (runExitCode r = 1 ↔
        (r.hasUsername = false ∨ r.hasPassword = false ∨ r.isbns = [] ∨
         ((initializeQueue r.isbns r.state).1 ≠ [] ∧
          ∃ m, r.initialNav = NavResult.thrown m))) := by
  intro r
  obtain ⟨u, p, isbns, st, nav⟩ := r
  cases u
  · exact ⟨Or.inr rfl, by simp [runExitCode]⟩
  · cases p
    · exact ⟨Or.inr rfl, by simp [runExitCode]⟩
    · by_cases he : isbns = []
      · subst he
        exact ⟨Or.inr rfl, by simp [runExitCode]⟩
      · have he' : isbns.isEmpty = false := by
          simpa [List.isEmpty_iff] using he
        by_cases hq : (initializeQueue isbns st).1 = []
        · have hq' : (initializeQueue isbns st).1.isEmpty = true := by
            simpa [List.isEmpty_iff] using hq
          refine ⟨Or.inl ?_, ?_⟩
          · simp [runExitCode, he', hq']
          · simp [runExitCode, he', hq', he, hq]
        · have hq' : (initializeQueue isbns st).1.isEmpty = false := by
            simpa [List.isEmpty_iff] using hq
          cases nav <;>
            refine ⟨?_, ?_⟩ <;>
              simp [runExitCode, he', hq', he, hq]

/-- C4 amended, witness: missing username exits 1; a thrown initial
navigation with pending work exits 1. -/
theorem runExitCode_amended_witness :
    (runExitCode ⟨false, true, ["x"], emptyState, NavResult.ready⟩ = 1 ↔
      ((false : Bool) = false ∨ (true : Bool) = false ∨
       (["x"] : List String) = [] ∨
       ((initializeQueue ["x"] emptyState).1 ≠ [] ∧
        ∃ m, NavResult.ready = NavResult.thrown m))) ∧
    (runExitCode ⟨true, true, ["x"], emptyState, NavResult.thrown "boom"⟩
        = 1 ↔
      ((true : Bool) = false ∨ (true : Bool) = false ∨
       (["x"] : List String) = [] ∨
       ((initializeQueue ["x"] emptyState).1 ≠ [] ∧
        ∃ m, NavResult.thrown "boom" = NavResult.thrown m))) :=
  ⟨(runExitCode_amended ⟨false, true, ["x"], emptyState,
      NavResult.ready⟩).2,
   (runExitCode_amended ⟨true, true, ["x"], emptyState,
      NavResult.thrown "boom"⟩).2⟩

/-- C5: the classifier reduces the terminal status text by
case-insensitive substring match exactly as specified: "no matching
resource" → NOT_FOUND; otherwise "found matching resource" → save control
absent → UNKNOWN, present and disabled → ALREADY_EXISTS without clicking,
present and enabled → ADDED after clicking; anything else (empty
included) → UNKNOWN; and the control is clicked in exactly the
found-present-enabled case, so a disabled control is never clicked
however often the identifier is resubmitted. -/
theorem classify_matches_spec :
    ∀ inp : ClassifyInput,
      (hasMsg inp.statusText "no matching resource" = true →
        classify inp = ⟨Status.NOT_FOUND, false, none⟩) ∧
      (hasMsg inp.statusText "no matching resource" = false →
       hasMsg inp.statusText "found matching resource" = true →
        (inp.saveControl = SaveControl.absent →
          classify inp
            = ⟨Status.UNKNOWN, false, some "Save button not found"⟩) ∧
        (inp.saveControl = SaveControl.present true →
          classify inp = ⟨Status.ALREADY_EXISTS, false, none⟩) ∧
        (inp.saveControl = SaveControl.present false →
          classify inp = ⟨Status.ADDED, true, none⟩)) ∧
      (hasMsg inp.statusText "no matching resource" = false →
       hasMsg inp.statusText "found matching resource" = false →
        classify inp = ⟨Status.UNKNOWN, false, some "No status message"⟩) ∧
      ((classify inp).clicked = true ↔
        (hasMsg inp.statusText "no matching resource" = false ∧
         hasMsg inp.statusText "found matching resource" = true ∧
         inp.saveControl = SaveControl.present false)) := by
  intro inp
  refine ⟨?_, ?_, ?_, ?_⟩
  · intro hA; simp [classify, hA]
  · intro hA hB
    refine ⟨?_, ?_, ?_⟩ <;> intro hc <;> simp [classify, hA, hB, hc]
  · intro hA hB; simp [classify, hA, hB]
  · by_cases hA : hasMsg inp.statusText "no matching resource"
    · simp [classify, hA]
    · by_cases hB : hasMsg inp.statusText "found matching resource"
      · cases hc : inp.saveControl with
        | absent => simp [classify, hA, hB, hc]
        | present d => cases d <;> simp [classify, hA, hB, hc]
      · simp [classify, hA, hB]

/-- C5 witness: a found resource with a disabled save control gives
ALREADY_EXISTS and no click. -/
theorem classify_matches_spec_witness :
    classify ⟨"Found matching resource", SaveControl.present true⟩
      = ⟨Status.ALREADY_EXISTS, false, none⟩ :=
  ((classify_matches_spec ⟨"Found matching resource",
      SaveControl.present true⟩).2.1 (by decide) (by decide)).2.1 rfl

/-- C6: every navigation/search retry loop has a hard ceiling within the
3–5 range — 3 attempts for the menu strategy, 3 for the per-item search
retry, 5 for the direct strategy — and past the ceiling each returns
false to its caller instead of retrying again; as total functions they
terminate on every environment. -/
theorem retry_ceilings :
    ∀ (menuEnv : Nat → MenuObs) (searchEnv : Nat → SearchObs)
      (directEnv : Nat → DirectObs) (a : Nat) (l : Bool),
      (a > 3 → attemptMenu menuEnv a = Except.ok false) ∧
      (a > 3 → searchSC searchEnv a = false) ∧
      (a > 5 → directGo directEnv 5 a l = false) := by
  intro me se de a l
  refine ⟨fun h => ?_, fun h => ?_, fun h => ?_⟩
  · unfold attemptMenu; simp [h]
  · unfold searchSC; simp [h]
  · unfold directGo; simp [h]

/-- C6 witness: at attempt 6 all three loops report failure. -/
theorem retry_ceilings_witness :
    attemptMenu (fun _ => ⟨true, true, true, true, false, [true], false,
        true, false, true⟩) 6 = Except.ok false ∧
    searchSC (fun _ => ⟨true, true, false, true, false⟩) 6 = false ∧
    directGo (fun _ => ⟨false, true, false, true, true⟩) 5 6 false
      = false :=
  ⟨(retry_ceilings (fun _ => ⟨true, true, true, true, false, [true], false,
        true, false, true⟩) (fun _ => ⟨true, true, false, true, false⟩)
      (fun _ => ⟨false, true, false, true, true⟩) 6 false).1 (by omega),
   (retry_ceilings (fun _ => ⟨true, true, true, true, false, [true], false,
        true, false, true⟩) (fun _ => ⟨true, true, false, true, false⟩)
      (fun _ => ⟨false, true, false, true, true⟩) 6 false).2.1 (by omega),
   (retry_ceilings (fun _ => ⟨true, true, true, true, false, [true], false,
        true, false, true⟩) (fun _ => ⟨true, true, false, true, false⟩)
      (fun _ => ⟨false, true, false, true, true⟩) 6 false).2.2 (by omega)⟩

/-- C7: when the post-search page shows the login affordance, has left
the search surface's URL, or shows permission denied, and `attempt < 3`,
the search re-runs the navigation resolver and retries the cycle (failing
only if re-navigation itself fails); and a search that ultimately fails
is recorded as ERROR by `processISBN`, never as UNKNOWN. -/
theorem search_session_loss_retries :
    ∀ (env : Nat → SearchObs) (a : Nat),
      (a < 3 → (env a).fieldAvailable = true → sessionLost (env a) = true →
        searchSC env a =
          (if (env a).renavSuccess then searchSC env (a + 1) else false)) ∧
      (∀ (navNeeded navSuccess : Bool) (inp : ClassifyInput),
        (processOutcome navNeeded navSuccess false inp).status
          = Status.ERROR ∧
        (processOutcome navNeeded navSuccess false inp).status
          ≠ Status.UNKNOWN) := by
  intro env a
  constructor
  · intro ha hf hl
    rw [searchSC.eq_def]
    have h3 : ¬(a > 3) := by omega
    simp [h3, hf, hl, ha]
  · intro navNeeded navSuccess inp
    cases navNeeded <;> cases navSuccess <;> simp [processOutcome]

/-- C7 witness: a session-losing observation at attempt 1 (login link
visible again) makes the search retry at attempt 2, and a failed search
surfaces as ERROR. -/
theorem search_session_loss_retries_witness :
    searchSC (fun _ => ⟨true, true, true, true, false⟩) 1
      = searchSC (fun _ => ⟨true, true, true, true, false⟩) 2 ∧
    (processOutcome true true false ⟨"", SaveControl.absent⟩).status
      = Status.ERROR :=
  ⟨(search_session_loss_retries
      (fun _ => ⟨true, true, true, true, false⟩) 1).1 (by omega) rfl rfl,
   ((search_session_loss_retries
      (fun _ => ⟨true, true, true, true, false⟩) 1).2 true true
      ⟨"", SaveControl.absent⟩).1⟩

/-- C8: among the duplicated `#menuItem_smartCataloguing` elements the
menu strategy selects the first visible one (the selected index is always
a visible element, never a hidden one), and when none is visible it
throws "No visible Smart Cataloguing menu item found" instead of clicking
the first match; `attemptMenu` surfaces that error. -/
theorem menu_item_visible_selection :
    (∀ (vs : List Bool) (i : Nat), selectMenuItem vs = Except.ok i →
      vs.getD i false = true) ∧
    (∀ vs : List Bool, (∀ v ∈ vs, v = false) →
      selectMenuItem vs
        = Except.error "No visible Smart Cataloguing menu item found") ∧
    (∀ (env : Nat → MenuObs) (a : Nat), a ≤ 3 →
      (env a).logoutVisible = true → (env a).menuFound = true →
      (env a).clickThrows = false →
      (∀ v ∈ (env a).itemsVisible, v = false) →
      attemptMenu env a
        = Except.error "No visible Smart Cataloguing menu item found") := by
  refine ⟨?_, ?_, ?_⟩
  · intro vs i h
    unfold selectMenuItem at h
    cases hf : firstVisibleIdx vs with
    | none => rw [hf] at h; simp at h
    | some j =>
        rw [hf] at h
        simp at h
        subst h
        exact firstVisibleIdx_visible vs j hf
  · intro vs h
    unfold selectMenuItem
    rw [firstVisibleIdx_none vs h]
  · intro env a ha hlog hmenu hclick hall
    unfold attemptMenu
    have h3 : ¬(a > 3) := by omega
    simp [h3, hlog, hmenu, hclick, selectMenuItem,
          firstVisibleIdx_none _ hall]

/-- C8 witness: with visibilities `[false, true]` the selected index 1 is
the visible element; with `[false, false]` selection throws. -/
theorem menu_item_visible_selection_witness :
    ([false, true].getD 1 false = true) ∧
    selectMenuItem [false, false]
      = Except.error "No visible Smart Cataloguing menu item found" :=
  ⟨menu_item_visible_selection.1 [false, true] 1 rfl,
   menu_item_visible_selection.2.1 [false, false] (by decide)⟩

/-- C10: `initializeQueue` does not deduplicate the supplied input list —
for an identifier with no terminal ledger entry and absent from the
persisted queue, every occurrence in the input survives into the
resulting queue (the occurrence counts are equal). -/
theorem initializeQueue_keeps_duplicates :
    ∀ (input : List String) (s : LedgerState) (isbn : String),
      processedIsbns s isbn = false → s.queue.contains isbn = false →
      (initializeQueue input s).1.count isbn = input.count isbn :=
  fun _ _ _ hp hq => count_initQueue hp hq

/-- C10 witness: `"a"` supplied twice on a fresh state is enqueued
twice. -/
theorem initializeQueue_keeps_duplicates_witness :
    (initializeQueue ["a", "a"] emptyState).1.count "a"
      = (["a", "a"] : List String).count "a" :=
  initializeQueue_keeps_duplicates ["a", "a"] emptyState "a" rfl rfl

/-- C9 witness: UNKNOWN for `"a"` with no message lands in the errors
ledger as `a # Unknown error`, and the save-control-missing case carries
"Save button not found". -/
theorem unknown_recorded_in_errors_witness :
    (recordResult ⟨["a"], [], [], [], []⟩ "a" Status.UNKNOWN none).errors
      = [] ++ ["a" ++ " # " ++ orUnknown none] ∧
    ((classify ⟨"found matching resource", SaveControl.absent⟩).errMsg
        = some "Save button not found" ∨
     (classify ⟨"found matching resource", SaveControl.absent⟩).errMsg
        = some "No status message") :=
  ⟨(unknown_recorded_in_errors ⟨["a"], [], [], [], []⟩ "a" none).2.1,
   (unknown_recorded_in_errors ⟨["a"], [], [], [], []⟩ "a" none).2.2.2.2.2.2
      ⟨"found matching resource", SaveControl.absent⟩ rfl⟩

end Oliver
